import Mathlib

/-!
# Verification of the git-ai Attribution Engine

A shallow embedding of the attribution engine of the `git-ai` repository:
the per-line provenance data model ("Virtual Attributions"), the merge
algorithm for attribution sets arising from divergent histories, the blame
overlay author resolution, and the fetch/pull command hooks of
`src/commands/hooks/fetch_hooks.rs`.

The hooks are embedded directly from `fetch_hooks.rs`.  The components that
the hooks call (`VirtualAttributions`, `merge_attributions_favoring_first`,
the working-log store, the blame overlay) live in repository files that are
not available here; those are modelled from the specification, and each such
definition carries a doc comment saying so.
-/

set_option autoImplicit false

namespace GitAI

/-- Author of a line: a human identity, or an AI tool (with optional model
and optional reference to a prompt/session record). -/
inductive Author where
  | human (identity : String)
  | ai (tool : String) (model : Option String) (promptId : Option String)
  deriving Repr, DecidableEq

/-- First-match association-list lookup, used for all string-keyed maps of
the embedding. -/
def alookup {β : Type} : List (String × β) → String → Option β
  | [], _ => none
  | (k, v) :: rest, key => if k = key then some v else alookup rest key

@[simp] theorem alookup_nil {β : Type} (key : String) :
    alookup ([] : List (String × β)) key = none := rfl

@[simp] theorem alookup_cons {β : Type} (k : String) (v : β)
    (rest : List (String × β)) (key : String) :
    alookup ((k, v) :: rest) key = if k = key then some v else alookup rest key := rfl

/-- Per-file attribution: one record per line of content, keyed by the exact
text of the line (the merge algorithm matches lines by verbatim content). -/
structure FileAttribution where
  lines : List (String × Author)
  deriving Repr, DecidableEq

/-- Attribution of a single line of content within one file. -/
def lookupLine (fa : FileAttribution) (l : String) : Option Author :=
  alookup fa.lines l

/-- Split a character stream into newline-separated chunks, accumulating the
current chunk in reverse. -/
def splitLinesAux : List Char → List Char → List String
  | [], acc => [String.mk acc.reverse]
  | c :: cs, acc =>
    if c = '\n' then String.mk acc.reverse :: splitLinesAux cs []
    else splitLinesAux cs (c :: acc)

/-- Split file content into its lines. -/
def splitLines (content : String) : List String :=
  splitLinesAux content.toList []

/-- Modelled from the spec: the central `VirtualAttributions` entity
(§3 of the spec) — the complete provenance mapping for a file tree,
anchored at `baseCommit`, describing state `head`, with per-file line
attribution, prompt metadata, and an optional human fallback identity.
The Rust definition lives in `src/authorship/virtual_attribution.rs`,
which is not part of the provided sources. -/
structure VirtualAttributions where
  baseCommit : String
  head : String
  files : List (String × FileAttribution)
  prompts : List (String × String)
  humanFallback : Option Author
  deriving Repr, DecidableEq

/-- An empty-but-valid `VirtualAttributions` for head `h` (spec §4.1:
"returns an empty-but-valid instance if no working log exists"). -/
def emptyVA (h : String) : VirtualAttributions :=
  { baseCommit := h, head := h, files := [], prompts := [], humanFallback := none }

/-- Prompt identifiers referenced by surviving AI line records. -/
def referencedPromptIds (files : List (String × FileAttribution)) : List String :=
  files.flatMap (fun pfa => pfa.2.lines.filterMap (fun la =>
    match la.2 with
    | Author.ai _ _ pid => pid
    | Author.human _ => none))

/-- Modelled from the spec (§4.2 step 4): prompts referenced by surviving
line records are kept; unreferenced prompts are garbage-collected. -/
def gcPrompts (prompts : List (String × String))
    (files : List (String × FileAttribution)) : List (String × String) :=
  prompts.filter (fun pr => (referencedPromptIds files).contains pr.1)

/-- Modelled from the spec (§4.2 steps 2–3): attribution of one final line
when both inputs have data for the file.  An unchanged line (present
verbatim in `primary`) keeps `primary`'s attribution — ties resolve in
favor of `primary`; otherwise the line inherits `secondary`'s attribution
if `secondary` attributes that exact final line, else falls back to the
primary human fallback. -/
def resolveLine (pf sf : FileAttribution) (fallback : Option Author)
    (l : String) : Option Author :=
  match lookupLine pf l with
  | some a => some a
  | none =>
    match lookupLine sf l with
    | some a => some a
    | none => fallback

/-- Modelled from the spec (§4.2 step 2): merge the attribution of one file
present in both inputs, re-deriving the records against the final lines. -/
def mergeFileBoth (pf sf : FileAttribution) (fallback : Option Author)
    (finalLines : List String) : FileAttribution :=
  ⟨finalLines.filterMap (fun l => (resolveLine pf sf fallback l).map (fun a => (l, a)))⟩

/-- Modelled from the spec (§4.2 step 1): adopt a single input's file
attribution verbatim and re-derive its line records against the file's
actual current lines. -/
def realignFile (fa : FileAttribution) (fallback : Option Author)
    (finalLines : List String) : FileAttribution :=
  ⟨finalLines.filterMap (fun l => ((lookupLine fa l).or fallback).map (fun a => (l, a)))⟩

/-- Modelled from the spec (§4.2 step 1): per-file dispatch of the merge —
if only one input has attribution data for a path, adopt it verbatim and
re-align it; if both have data, merge with content matching; if neither
has data, the file gets no attribution. -/
def mergeFileFor (p s : VirtualAttributions) (path content : String) :
    Option FileAttribution :=
  match alookup p.files path, alookup s.files path with
  | some pf, some sf => some (mergeFileBoth pf sf p.humanFallback (splitLines content))
  | some pf, none => some (realignFile pf p.humanFallback (splitLines content))
  | none, some sf => some (realignFile sf s.humanFallback (splitLines content))
  | none, none => none

/-- Modelled from the spec (§4.2, `merge_favoring_first`): combine two
`VirtualAttributions` describing the same logical work reached via
divergent histories, given the final on-disk contents.  The Rust function
`merge_attributions_favoring_first` lives in
`src/authorship/virtual_attribution.rs`, which is not part of the provided
sources.  The output is anchored at the caller-supplied new head (the head
of the secondary input, built for the new HEAD state). -/
def merge_attributions_favoring_first (p s : VirtualAttributions)
    (finalContents : List (String × String)) : VirtualAttributions :=
  let files := finalContents.filterMap (fun pc =>
    (mergeFileFor p s pc.1 pc.2).map (fun fa => (pc.1, fa)))
  { baseCommit := s.head
    head := s.head
    files := files
    prompts := gcPrompts (p.prompts ++ s.prompts) files
    humanFallback := p.humanFallback }

/-- The spec's words for claim C4: "`A` re-aligned to `content`" — every
file of `A` present in the final contents is adopted verbatim and its line
records re-derived against the file's current lines; prompts no longer
referenced are dropped; the result is anchored at the new head. -/
def realignVA (a : VirtualAttributions) (newHead : String)
    (finalContents : List (String × String)) : VirtualAttributions :=
  let files := finalContents.filterMap (fun pc =>
    (alookup a.files pc.1).map (fun fa =>
      (pc.1, realignFile fa a.humanFallback (splitLines pc.2))))
  { baseCommit := newHead
    head := newHead
    files := files
    prompts := gcPrompts a.prompts files
    humanFallback := a.humanFallback }

theorem resolveLine_eq (pf sf : FileAttribution) (fallback : Option Author)
    (l : String) :
    resolveLine pf sf fallback l =
      (lookupLine pf l).or ((lookupLine sf l).or fallback) := by
  unfold resolveLine
  cases lookupLine pf l <;> cases lookupLine sf l <;> rfl

theorem mergeFileBoth_empty_secondary (pf : FileAttribution)
    (fallback : Option Author) (finalLines : List String) :
    mergeFileBoth pf ⟨[]⟩ fallback finalLines = realignFile pf fallback finalLines := by
  unfold mergeFileBoth realignFile
  congr 1
  apply List.filterMap_congr
  intro l _
  rw [resolveLine_eq]
  have hempty : lookupLine ⟨[]⟩ l = none := rfl
  rw [hempty, Option.none_or]

/-- If a line is present among the final lines and `primary` attributes it,
then the merged file attribution for a both-sided file attributes that line
per `primary`. -/
theorem lookupLine_mergeFileBoth_primary (pf sf : FileAttribution)
    (fallback : Option Author) (finalLines : List String) (l : String)
    (a : Author) (hl : l ∈ finalLines) (ha : lookupLine pf l = some a) :
    lookupLine (mergeFileBoth pf sf fallback finalLines) l = some a := by
  induction finalLines with
  | nil => cases hl
  | cons x rest ih =>
    by_cases hxl : x = l
    · subst hxl
      have hres : resolveLine pf sf fallback x = some a := by
        rw [resolveLine_eq, ha]
        rfl
      simp [mergeFileBoth, lookupLine, List.filterMap_cons, hres, alookup]
    · have hlr : l ∈ rest := by
        rcases List.mem_cons.mp hl with h | h
        · exact absurd h.symm hxl
        · exact h
      have hih := ih hlr
      cases hres : resolveLine pf sf fallback x with
      | none =>
        simpa [mergeFileBoth, lookupLine, List.filterMap_cons, hres] using hih
      | some b =>
        simpa [mergeFileBoth, lookupLine, List.filterMap_cons, hres, alookup, hxl]
          using hih

/-- Same statement for a file only `primary` has data for. -/
theorem lookupLine_realignFile_primary (pf : FileAttribution)
    (fallback : Option Author) (finalLines : List String) (l : String)
    (a : Author) (hl : l ∈ finalLines) (ha : lookupLine pf l = some a) :
    lookupLine (realignFile pf fallback finalLines) l = some a := by
  have h := lookupLine_mergeFileBoth_primary pf ⟨[]⟩ fallback finalLines l a hl ha
  rwa [mergeFileBoth_empty_secondary] at h

/-- Merged per-path lookup: a path carried by the final contents whose
attribution exists in `primary` resolves, in the merged result, to the
both-sided merge or the primary re-alignment according to whether
`secondary` also has data. -/
theorem merge_files_alookup (p s : VirtualAttributions)
    (finalContents : List (String × String)) (f c : String)
    (hc : alookup finalContents f = some c)
    (pf : FileAttribution) (hp : alookup p.files f = some pf) :
    alookup (merge_attributions_favoring_first p s finalContents).files f =
      some (match alookup s.files f with
        | some sf => mergeFileBoth pf sf p.humanFallback (splitLines c)
        | none => realignFile pf p.humanFallback (splitLines c)) := by
  unfold merge_attributions_favoring_first
  induction finalContents with
  | nil => simp [alookup] at hc
  | cons pc rest ih =>
    obtain ⟨k, v⟩ := pc
    by_cases hk : k = f
    · subst hk
      simp only [alookup_cons, if_pos rfl] at hc
      obtain rfl : v = c := by injection hc
      cases hs : alookup s.files k <;>
        simp [List.filterMap_cons, mergeFileFor, hp, hs, alookup]
    · simp only [alookup_cons, if_neg hk] at hc
      have := ih hc
      simp only [List.filterMap_cons]
      cases hm : mergeFileFor p s k v with
      | none => simpa [hm] using this
      | some fa => simpa [hm, alookup, hk] using this

/-- C3: for every pair of inputs and final contents, a line present
verbatim in the final content of a file that both inputs attribute (and
attribute differently) is attributed per the first (`primary`) input in the
merged result. -/
theorem c3_merge_ties_favor_primary (p s : VirtualAttributions)
    (finalContents : List (String × String)) (f c l : String)
    (pf sf : FileAttribution) (a b : Author)
    (hc : alookup finalContents f = some c)
    (hp : alookup p.files f = some pf)
    (hs : alookup s.files f = some sf)
    (hl : l ∈ splitLines c)
    (hpa : lookupLine pf l = some a)
    (_hsb : lookupLine sf l = some b) :
    ∃ fa, alookup (merge_attributions_favoring_first p s finalContents).files f = some fa ∧
      lookupLine fa l = some a := by
  refine ⟨mergeFileBoth pf sf p.humanFallback (splitLines c), ?_, ?_⟩
  · have h := merge_files_alookup p s finalContents f c hc pf hp
    rw [h, hs]
  · exact lookupLine_mergeFileBoth_primary pf sf p.humanFallback (splitLines c) l a hl hpa

/-- C3 witness: a concrete tie — the line "x" attributed to an AI tool by
the primary input and to a human by the secondary — merges to the primary's
AI attribution. -/
theorem c3_merge_ties_favor_primary_witness :
    ∃ fa,
      alookup (merge_attributions_favoring_first
        { baseCommit := "o", head := "o",
          files := [("f.txt", ⟨[("x", Author.ai "tool" none none)]⟩)],
          prompts := [], humanFallback := none }
        { baseCommit := "n", head := "n",
          files := [("f.txt", ⟨[("x", Author.human "alice")]⟩)],
          prompts := [], humanFallback := none }
        [("f.txt", "x\ny")]).files "f.txt" = some fa ∧
      lookupLine fa "x" = some (Author.ai "tool" none none) := by
  exact c3_merge_ties_favor_primary
    { baseCommit := "o", head := "o",
      files := [("f.txt", ⟨[("x", Author.ai "tool" none none)]⟩)],
      prompts := [], humanFallback := none }
    { baseCommit := "n", head := "n",
      files := [("f.txt", ⟨[("x", Author.human "alice")]⟩)],
      prompts := [], humanFallback := none }
    [("f.txt", "x\ny")] "f.txt" "x\ny" "x"
    ⟨[("x", Author.ai "tool" none none)]⟩
    ⟨[("x", Author.human "alice")]⟩
    (Author.ai "tool" none none) (Author.human "alice")
    (by decide) (by decide) (by decide) (by decide) (by decide) (by decide)

/-- C4: merging any `VirtualAttributions` with an empty secondary input
yields exactly the first input re-aligned to the final contents. -/
theorem c4_merge_empty_secondary_realigns (a : VirtualAttributions)
    (newHead : String) (finalContents : List (String × String)) :
    merge_attributions_favoring_first a (emptyVA newHead) finalContents =
      realignVA a newHead finalContents := by
  unfold merge_attributions_favoring_first realignVA emptyVA
  have hfiles : List.filterMap (fun pc =>
      (mergeFileFor a (emptyVA newHead) pc.1 pc.2).map (fun fa => (pc.1, fa)))
      finalContents =
      List.filterMap (fun pc => (alookup a.files pc.1).map (fun fa =>
        (pc.1, realignFile fa a.humanFallback (splitLines pc.2)))) finalContents := by
    apply List.filterMap_congr
    intro pc _
    cases h : alookup a.files pc.1 <;>
      simp [mergeFileFor, h, emptyVA, alookup]
  simp only [emptyVA] at hfiles
  rw [hfiles]
  simp

/-!
## Blame Overlay Engine (modelled from the spec)

The blame overlay implementation is not among the provided sources (only its
integration tests, `src/tests/blame_flags.rs`, are).  The model below follows
spec §4.3: line-to-origin resolution is the native tool's, so a blame line is
abstracted as its resolved origin commit, native committer identity and
content; an arbitrary rendering function stands for the formatting of any
supported flag combination / output mode, applied to the displayed origin
identifier and the displayed author.
-/

/-- Modelled from the spec (§4.3 step 1 and §6): the engine-specific blame
flags — `--mark-unknown` and `--contents -` (content from stdin). -/
structure BlameFlags where
  markUnknown : Bool
  contentsFromStdin : Bool
  deriving Repr, DecidableEq

/-- One output line of the native annotation algorithm: the resolved origin
commit, the native committer identity for that commit, and the line's
content. -/
structure BlameLine where
  origin : String
  committer : String
  content : String
  deriving Repr, DecidableEq

/-- The fixed zero identifier rendered for externally supplied content
(`src/tests/blame_flags.rs`, `test_blame_contents_from_stdin`). -/
def zeroOriginId : String := "0000000"

/-- The fixed descriptive label rendered for externally supplied content
(`src/tests/blame_flags.rs`, `test_blame_contents_from_stdin`). -/
def externalContentsLabel : String := "External file (--contents)"

/-- The sentinel author rendered under `--mark-unknown` for commits lacking
an attribution record. -/
def unknownAuthorLabel : String := "Unknown"

/-- The author field rendered for an AI-attributed line: the tool/model
identity (spec §4.3 step 3). -/
def aiDisplay (tool : String) (model : Option String) : String :=
  match model with
  | some m => tool ++ " (" ++ m ++ ")"
  | none => tool

/-- Modelled from the spec (§4.3 steps 3–5): the displayed author for one
resolved blame line.  Externally supplied content always renders the fixed
external-source label.  A line whose origin commit has an authorship-log
entry renders the AI tool/model identity when the record designates AI and
the native committer identity otherwise (per §8, only AI-attributed lines
differ from native output; a line the entry does not cover degrades to the
native identity, §4.3 error handling).  A line whose origin has no entry
renders the native committer identity, or the sentinel under
`mark_unknown`. -/
def resolveAuthor (logs : List (String × FileAttribution)) (flags : BlameFlags)
    (bl : BlameLine) : String :=
  if flags.contentsFromStdin then externalContentsLabel
  else
    match alookup logs bl.origin with
    | none => if flags.markUnknown then unknownAuthorLabel else bl.committer
    | some entry =>
      match lookupLine entry bl.content with
      | some (Author.ai tool mdl _) => aiDisplay tool mdl
      | some (Author.human _) => bl.committer
      | none => bl.committer

/-- The displayed origin identifier: the fixed zero identifier for
externally supplied content, the native origin commit otherwise. -/
def displayOrigin (flags : BlameFlags) (bl : BlameLine) : String :=
  if flags.contentsFromStdin then zeroOriginId else bl.origin

/-- The engine's blame output: the native resolution per line, rendered by
an arbitrary formatting function (standing for any supported flag
combination / output mode) applied to the displayed origin and the
overlay-resolved author. -/
def engineBlameOutput (logs : List (String × FileAttribution))
    (flags : BlameFlags) (render : String → String → BlameLine → String)
    (lines : List BlameLine) : List String :=
  lines.map (fun bl => render (displayOrigin flags bl) (resolveAuthor logs flags bl) bl)

/-- The wrapped native tool's blame output: the same rendering applied to
the native origin and the native committer identity. -/
def nativeBlameOutput (render : String → String → BlameLine → String)
    (lines : List BlameLine) : List String :=
  lines.map (fun bl => render bl.origin bl.committer bl)

/-- Whether the overlay attributes a blame line to an AI author. -/
def lineIsAIAttributed (logs : List (String × FileAttribution))
    (bl : BlameLine) : Bool :=
  match alookup logs bl.origin with
  | some entry =>
    match lookupLine entry bl.content with
    | some (Author.ai _ _ _) => true
    | _ => false
  | none => false

/-- C1: for a file with zero AI-attributed lines, under every flag
combination (arbitrary rendering function; `--mark-unknown` absent, or
every origin commit carrying an attribution record — covering commits
created outside the engine when `--mark-unknown` is absent), the engine's
annotation output is byte-identical to the wrapped native tool's output. -/
theorem c1_zero_ai_blame_matches_native (logs : List (String × FileAttribution))
    (flags : BlameFlags) (render : String → String → BlameLine → String)
    (lines : List BlameLine)
    (hstdin : flags.contentsFromStdin = false)
    (hai : ∀ bl ∈ lines, lineIsAIAttributed logs bl = false)
    (hmk : flags.markUnknown = false ∨
      ∀ bl ∈ lines, (alookup logs bl.origin).isSome = true) :
    engineBlameOutput logs flags render lines = nativeBlameOutput render lines := by
  unfold engineBlameOutput nativeBlameOutput
  apply List.map_congr_left
  intro bl hbl
  have horigin : displayOrigin flags bl = bl.origin := by
    simp [displayOrigin, hstdin]
  have hauthor : resolveAuthor logs flags bl = bl.committer := by
    unfold resolveAuthor
    rw [hstdin]
    simp only [Bool.false_eq_true, if_false]
    cases hlog : alookup logs bl.origin with
    | none =>
      rcases hmk with hmk | hmk
      · simp [hmk]
      · have := hmk bl hbl
        rw [hlog] at this
        simp at this
    | some entry =>
      have hba := hai bl hbl
      unfold lineIsAIAttributed at hba
      rw [hlog] at hba
      cases hline : lookupLine entry bl.content with
      | none => simp [hline]
      | some a =>
        cases a with
        | human i => simp [hline]
        | ai t m p => simp [hline] at hba
  rw [horigin, hauthor]

/-- C1 witness: a one-line file whose only line is human-attributed renders
identically to the native tool under a concrete format. -/
theorem c1_zero_ai_blame_matches_native_witness :
    engineBlameOutput [("c1", ⟨[("Line 1", Author.human "Test User")]⟩)]
      ⟨false, false⟩
      (fun o a bl => o ++ " (" ++ a ++ ") " ++ bl.content)
      [⟨"c1", "Test User", "Line 1"⟩, ⟨"c9", "Other User", "Line 2"⟩] =
    nativeBlameOutput (fun o a bl => o ++ " (" ++ a ++ ") " ++ bl.content)
      [⟨"c1", "Test User", "Line 1"⟩, ⟨"c9", "Other User", "Line 2"⟩] := by
  exact c1_zero_ai_blame_matches_native
    [("c1", ⟨[("Line 1", Author.human "Test User")]⟩)]
    ⟨false, false⟩
    (fun o a bl => o ++ " (" ++ a ++ ") " ++ bl.content)
    [⟨"c1", "Test User", "Line 1"⟩, ⟨"c9", "Other User", "Line 2"⟩]
    rfl (by decide) (Or.inl rfl)

/-- C8: with content supplied via `--contents -`, every output line is
rendered with the fixed zero identifier and the fixed external-source label
as its origin/author, whatever the authorship logs, the tracked history and
the `mark_unknown` flag. -/
theorem c8_contents_stdin_fixed_pseudo_origin
    (logs : List (String × FileAttribution)) (flags : BlameFlags)
    (render : String → String → BlameLine → String) (lines : List BlameLine)
    (hstdin : flags.contentsFromStdin = true) :
    engineBlameOutput logs flags render lines =
      lines.map (fun bl => render zeroOriginId externalContentsLabel bl) := by
  unfold engineBlameOutput
  apply List.map_congr_left
  intro bl _
  simp [displayOrigin, resolveAuthor, hstdin]

/-- C8 witness: stdin-supplied content over a tracked file with history and
`mark_unknown` set still renders the zero identifier and external label for
every line. -/
theorem c8_contents_stdin_fixed_pseudo_origin_witness :
    engineBlameOutput [("c1", ⟨[("Line 2", Author.ai "mock_ai" none none)]⟩)]
      ⟨true, true⟩
      (fun o a bl => o ++ " (" ++ a ++ ") " ++ bl.content)
      [⟨"c1", "Test User", "Changed"⟩, ⟨"c1", "Test User", "Line 2"⟩] =
    [⟨"c1", "Test User", "Changed"⟩, ⟨"c1", "Test User", "Line 2"⟩].map
      (fun bl => (fun o a (bl : BlameLine) => o ++ " (" ++ a ++ ") " ++ bl.content)
        zeroOriginId externalContentsLabel bl) := by
  exact c8_contents_stdin_fixed_pseudo_origin
    [("c1", ⟨[("Line 2", Author.ai "mock_ai" none none)]⟩)]
    ⟨true, true⟩
    (fun o a bl => o ++ " (" ++ a ++ ") " ++ bl.content)
    [⟨"c1", "Test User", "Changed"⟩, ⟨"c1", "Test User", "Line 2"⟩]
    rfl

/-- C9: under any rendering, a line whose origin commit has an attribution
record renders identically with and without `--mark-unknown`; a line whose
origin commit lacks a record renders the native committer identity without
the flag and the sentinel "Unknown" with it. -/
theorem c9_mark_unknown_only_changes_unlogged
    (logs : List (String × FileAttribution))
    (render : String → String → BlameLine → String) (bl : BlameLine) :
    ((alookup logs bl.origin).isSome = true →
      render (displayOrigin ⟨true, false⟩ bl) (resolveAuthor logs ⟨true, false⟩ bl) bl =
        render (displayOrigin ⟨false, false⟩ bl) (resolveAuthor logs ⟨false, false⟩ bl) bl) ∧
    (alookup logs bl.origin = none →
      resolveAuthor logs ⟨false, false⟩ bl = bl.committer ∧
        resolveAuthor logs ⟨true, false⟩ bl = unknownAuthorLabel) := by
  constructor
  · intro hsome
    cases hlog : alookup logs bl.origin with
    | none => rw [hlog] at hsome; simp at hsome
    | some entry =>
      unfold resolveAuthor displayOrigin
      rw [hlog]
  · intro hnone
    unfold resolveAuthor
    rw [hnone]
    exact ⟨rfl, rfl⟩

/-- C9 witness: a logged origin renders identically under both runs, and an
unlogged origin renders the committer without the flag and "Unknown" with
it, at concrete inputs. -/
theorem c9_mark_unknown_only_changes_unlogged_witness :
    ((fun o a (_bl : BlameLine) => o ++ " " ++ a)
        (displayOrigin ⟨true, false⟩ ⟨"c1", "Test User", "x"⟩)
        (resolveAuthor [("c1", ⟨[("x", Author.ai "mock_ai" none none)]⟩)]
          ⟨true, false⟩ ⟨"c1", "Test User", "x"⟩) ⟨"c1", "Test User", "x"⟩ =
      (fun o a (_bl : BlameLine) => o ++ " " ++ a)
        (displayOrigin ⟨false, false⟩ ⟨"c1", "Test User", "x"⟩)
        (resolveAuthor [("c1", ⟨[("x", Author.ai "mock_ai" none none)]⟩)]
          ⟨false, false⟩ ⟨"c1", "Test User", "x"⟩) ⟨"c1", "Test User", "x"⟩) ∧
    (resolveAuthor [("c1", ⟨[("x", Author.ai "mock_ai" none none)]⟩)]
        ⟨false, false⟩ ⟨"c2", "Test User", "y"⟩ = "Test User" ∧
      resolveAuthor [("c1", ⟨[("x", Author.ai "mock_ai" none none)]⟩)]
        ⟨true, false⟩ ⟨"c2", "Test User", "y"⟩ = unknownAuthorLabel) := by
  constructor
  · exact (c9_mark_unknown_only_changes_unlogged
      [("c1", ⟨[("x", Author.ai "mock_ai" none none)]⟩)]
      (fun o a (_bl : BlameLine) => o ++ " " ++ a)
      ⟨"c1", "Test User", "x"⟩).1 (by decide)
  · exact (c9_mark_unknown_only_changes_unlogged
      [("c1", ⟨[("x", Author.ai "mock_ai" none none)]⟩)]
      (fun o a (_bl : BlameLine) => o ++ " " ++ a)
      ⟨"c2", "Test User", "y"⟩).2 (by decide)

/-!
## Fetch / pull command hooks

Embedded from `src/commands/hooks/fetch_hooks.rs`.  Side effects (thread
spawn and join, network transfer, debug logging, store writes) are recorded
as an event trace; the repository abstraction and the store are explicit
state.  Collaborators that live outside the provided sources
(`is_dry_run`, `fetch_remote_from_args`, `from_just_working_log`,
`to_authorship_log_and_initial_working_log`, `write_initial_attributions`)
are modelled from the spec, as marked on each definition.
-/

/-- Observable actions of a hook run, in program order. -/
inductive Event where
  | scheduleUpdateCheck
  | spawnFlush
  | spawnFetchThread
  | networkFetch
  | joinFetch
  | mergeInvoked
  | wroteInitial
  | log (msg : String)
  deriving Repr, DecidableEq

/-- The parsed wrapped-tool invocation, restricted to what the hooks
consult: command-flag presence, dry-run detection, and the outcome of
remote-name extraction. -/
structure ParsedGitInvocation where
  commandFlags : List String
  dryRun : Bool
  remoteResult : Option String
  deriving Repr, DecidableEq

/-- Flag-presence check of the command-argument abstraction (spec §6). -/
def ParsedGitInvocation.hasCommandFlag (args : ParsedGitInvocation)
    (flag : String) : Bool :=
  args.commandFlags.contains flag

/-- Modelled from the spec (§6): dry-run detection of the command-argument
abstraction (`is_dry_run` in `src/git/cli_parser.rs`, not provided). -/
def is_dry_run (args : ParsedGitInvocation) : Bool :=
  args.dryRun

/-- Data held in the INITIAL slot of a working log: the seeded per-file
attributions and prompt records. -/
structure InitialAttributions where
  files : List (String × FileAttribution)
  prompts : List (String × String)
  deriving Repr, DecidableEq

/-- A working log (spec §3): the INITIAL slot plus attribution derived from
the appended episodes since the base commit. -/
structure WorkingLogState where
  initial : Option InitialAttributions
  episodeFiles : List (String × FileAttribution)
  deriving Repr, DecidableEq

/-- The repository abstraction as consulted by the hooks (spec §6): HEAD,
the pre-command HEAD capture, workdir file contents, the attribution
store's working logs keyed by base commit, batched config values, the
staged/unstaged filename listing (`none` models a failing call), and the
default commit author. -/
structure RepoState where
  headCommit : Option String
  preCommandBaseCommit : Option String
  workdirFiles : List (String × String)
  workingLogs : List (String × WorkingLogState)
  configValues : List (String × String)
  stagedUnstagedFilenames : Option (List String)
  defaultAuthor : String
  deriving Repr, DecidableEq

/-- The per-command hook context (spec §9: explicit context value threaded
through pre/post hook calls): whether a background authorship-fetch task
was spawned, and the captured stashed `VirtualAttributions`. -/
structure CommandHooksContext where
  fetchAuthorshipHandle : Bool
  stashedVA : Option VirtualAttributions
  deriving Repr, DecidableEq

/-- Result of checking pull rebase and autostash settings
(`fetch_hooks.rs`). -/
structure PullRebaseAutostashConfig where
  is_rebase : Bool
  is_autostash : Bool
  deriving Repr, DecidableEq

/-- Batched config read for the pattern
`^(pull\.rebase|rebase\.autoStash)$` (spec §6 `config_get_regexp`). -/
def config_get_regexp (repository : RepoState) : List (String × String) :=
  repository.configValues.filter
    (fun kv => kv.1 == "pull.rebase" || kv.1 == "rebase.autoStash")

/-- Embedded from `fetch_hooks.rs::get_pull_rebase_autostash_config`:
CLI flags take precedence (`--no-rebase` over `--rebase`/`-r`,
`--no-autostash` over `--autostash`); config is consulted only for settings
the CLI leaves open — `pull.rebase` enables rebase for any value other than
"false", `rebase.autoStash` enables autostash only for "true". -/
def get_pull_rebase_autostash_config (parsed_args : ParsedGitInvocation)
    (repository : RepoState) : PullRebaseAutostashConfig :=
  let rebase_from_cli : Option Bool :=
    if parsed_args.hasCommandFlag "--no-rebase" then some false
    else if parsed_args.hasCommandFlag "--rebase" || parsed_args.hasCommandFlag "-r" then
      some true
    else none
  let autostash_from_cli : Option Bool :=
    if parsed_args.hasCommandFlag "--no-autostash" then some false
    else if parsed_args.hasCommandFlag "--autostash" then some true
    else none
  match rebase_from_cli, autostash_from_cli with
  | some is_rebase, some is_autostash => ⟨is_rebase, is_autostash⟩
  | _, _ =>
    let config := config_get_regexp repository
    let is_rebase := rebase_from_cli.getD
      (match alookup config "pull.rebase" with
       | some v => v.toLower != "false"
       | none => false)
    let is_autostash := autostash_from_cli.getD
      (match alookup config "rebase.autoStash" with
       | some v => v.toLower == "true"
       | none => false)
    ⟨is_rebase, is_autostash⟩

/-- Embedded from `fetch_hooks.rs::has_uncommitted_changes`: true iff the
staged/unstaged filename listing succeeds and is non-empty. -/
def has_uncommitted_changes (repository : RepoState) : Bool :=
  match repository.stagedUnstagedFilenames with
  | some filenames => !filenames.isEmpty
  | none => false

/-- Modelled from the spec: `get_commit_default_author` (in
`src/commands/hooks/commit_hooks.rs`, not provided) yields the human
identity used as attribution fallback. -/
def get_commit_default_author (repository : RepoState) : Author :=
  Author.human repository.defaultAuthor

/-- Modelled from the spec (§4.1 `load_working`):
`VirtualAttributions::from_just_working_log` reconstructs the uncommitted
attribution state purely from the working log anchored at `base` (INITIAL
slot plus appended episodes), without blame/diff machinery; an
empty-but-valid instance results if no working log exists. -/
def from_just_working_log (repository : RepoState) (base : String)
    (fallback : Option Author) : VirtualAttributions :=
  match alookup repository.workingLogs base with
  | none =>
    { baseCommit := base, head := base, files := [], prompts := [],
      humanFallback := fallback }
  | some wl =>
    { baseCommit := base
      head := base
      files := wl.episodeFiles ++
        (match wl.initial with | some i => i.files | none => [])
      prompts := (match wl.initial with | some i => i.prompts | none => [])
      humanFallback := fallback }

/-- Modelled from the spec: `fetch_remote_from_args` (in
`src/git/sync_authorship.rs`, not provided) extracts the remote name for
the invocation; the extraction outcome is carried on the parsed
invocation. -/
def fetch_remote_from_args (_repository : RepoState)
    (parsed_args : ParsedGitInvocation) : Option String :=
  parsed_args.remoteResult

/-- Embedded from `fetch_hooks.rs::fetch_pull_pre_command_hook`: schedule
the update check, return early on a dry run, spawn the observability
flush, extract the remote (skipping with a log on failure), and spawn the
background authorship-fetch thread.  The returned value is the thread
handle (carrying the remote the thread fetches from). -/
def fetch_pull_pre_command_hook (parsed_args : ParsedGitInvocation)
    (repository : RepoState) : Option String × List Event :=
  let ev0 := [Event.scheduleUpdateCheck]
  if is_dry_run parsed_args then (none, ev0)
  else
    let ev1 := ev0 ++ [Event.spawnFlush]
    match fetch_remote_from_args repository parsed_args with
    | none =>
      (none, ev1 ++ [Event.log "failed to extract remote for authorship fetch; skipping"])
    | some remote => (some remote, ev1 ++ [Event.spawnFetchThread])

/-- Outcome of the background synchronization work: repository reopen
failure, transport failure from `fetch_authorship_notes`, or success. -/
inductive SyncOutcome where
  | repoOpenFailed
  | fetchFailed (e : String)
  | fetchOk
  deriving Repr, DecidableEq

/-- Embedded from the background-thread closure in
`fetch_hooks.rs::fetch_pull_pre_command_hook`: every failure is logged and
the thread returns normally (the return type carries no error). -/
def backgroundFetchThread (remote : String) (outcome : SyncOutcome) : List Event :=
  Event.log ("started fetching authorship notes from remote: " ++ remote) ::
  match outcome with
  | SyncOutcome.repoOpenFailed => [Event.log "failed to open repository for authorship fetch"]
  | SyncOutcome.fetchFailed e =>
    [Event.networkFetch, Event.log ("authorship fetch failed: " ++ e)]
  | SyncOutcome.fetchOk => [Event.networkFetch]

/-- Embedded from `fetch_hooks.rs::pull_pre_command_hook`: start the
background authorship fetch, capture HEAD, and when rebase+autostash mode
with uncommitted changes is detected, capture a `VirtualAttributions`
snapshot from the working log (stashing it only if non-empty). -/
def pull_pre_command_hook (parsed_args : ParsedGitInvocation)
    (repository : RepoState) : RepoState × CommandHooksContext × List Event :=
  let fetchResult := fetch_pull_pre_command_hook parsed_args repository
  let repository := { repository with preCommandBaseCommit := repository.headCommit }
  let ctx : CommandHooksContext :=
    { fetchAuthorshipHandle := fetchResult.1.isSome, stashedVA := none }
  let config := get_pull_rebase_autostash_config parsed_args repository
  let has_changes := has_uncommitted_changes repository
  if config.is_rebase && config.is_autostash && has_changes then
    match repository.headCommit with
    | none => (repository, ctx, fetchResult.2)
    | some head_sha =>
      let va := from_just_working_log repository head_sha
        (some (get_commit_default_author repository))
      if va.files.isEmpty then (repository, ctx, fetchResult.2)
      else (repository, { ctx with stashedVA := some va }, fetchResult.2)
  else (repository, ctx, fetchResult.2)

/-- Embedded from `fetch_hooks.rs::fetch_pull_post_command_hook`: join the
background authorship-fetch thread if it was started, regardless of the
main command's exit status. -/
def fetch_pull_post_command_hook (ctx : CommandHooksContext) :
    CommandHooksContext × List Event :=
  if ctx.fetchAuthorshipHandle then
    ({ ctx with fetchAuthorshipHandle := false }, [Event.joinFetch])
  else (ctx, [])

/-- Embedded from `fetch_hooks.rs::pull_post_command_hook`: the workdir
contents of the stashed files (files missing from the workdir are
skipped). -/
def buildWorkingFiles (repository : RepoState) (paths : List String) :
    List (String × String) :=
  paths.filterMap (fun p => (alookup repository.workdirFiles p).map (fun c => (p, c)))

/-- Modelled from the spec (§4.1/§4.2):
`to_authorship_log_and_initial_working_log` invoked with equal parent and
commit identifiers routes all attributions of the merged
`VirtualAttributions` into the INITIAL data (none into the per-commit
authorship log). -/
def toInitialAttributions (va : VirtualAttributions) : InitialAttributions :=
  ⟨va.files, va.prompts⟩

/-- The INITIAL attributions the post-pull restoration computes for the new
HEAD: the working-log state at the new HEAD merged, favoring the stashed
snapshot, against the final workdir contents of the stashed files. -/
def pullMergedInitial (repository : RepoState) (new_head : String)
    (stashed_va : VirtualAttributions) : InitialAttributions :=
  let working_files := buildWorkingFiles repository (stashed_va.files.map Prod.fst)
  let new_va := from_just_working_log repository new_head none
  toInitialAttributions (merge_attributions_favoring_first stashed_va new_va working_files)

/-- Idempotently set the INITIAL slot of the working log for `base`. -/
def setInitialSlot : List (String × WorkingLogState) → String → InitialAttributions →
    List (String × WorkingLogState)
  | [], base, init => [(base, ⟨some init, []⟩)]
  | (k, wl) :: rest, base, init =>
    if k = base then (k, { wl with initial := some init }) :: rest
    else (k, wl) :: setInitialSlot rest base init

/-- Modelled from the spec (§4.1 `write_initial`): write the INITIAL slot
of the working log for the given base commit. -/
def write_initial_attributions (repository : RepoState) (base : String)
    (init : InitialAttributions) : RepoState :=
  { repository with workingLogs := setInitialSlot repository.workingLogs base init }

/-- Embedded from `fetch_hooks.rs::pull_post_command_hook`, the portion
after the join: skip unless the pull succeeded, both HEADs are known and
differ, and a non-empty stashed snapshot with surviving workdir files
exists; then merge (favoring the stashed snapshot) and write the result to
the INITIAL slot for the new HEAD unless it is empty. -/
def pull_post_restore (repository : RepoState) (exit_success : Bool)
    (ctx : CommandHooksContext) : RepoState × List Event :=
  if !exit_success then (repository, [])
  else
    match repository.preCommandBaseCommit with
    | none => (repository, [])
    | some old_head =>
      match repository.headCommit with
      | none => (repository, [])
      | some new_head =>
        if old_head = new_head then (repository, [])
        else
          match ctx.stashedVA with
          | none => (repository, [])
          | some stashed_va =>
            if (stashed_va.files.map Prod.fst).isEmpty then (repository, [])
            else
              if (buildWorkingFiles repository (stashed_va.files.map Prod.fst)).isEmpty then
                (repository, [])
              else
                let initial_attributions := pullMergedInitial repository new_head stashed_va
                if initial_attributions.files.isEmpty && initial_attributions.prompts.isEmpty then
                  (repository, [Event.mergeInvoked])
                else
                  (write_initial_attributions repository new_head initial_attributions,
                    [Event.mergeInvoked, Event.wroteInitial])

/-- Embedded from `fetch_hooks.rs::pull_post_command_hook`: join the
background authorship-fetch thread first (if it was started), then run the
post-pull attribution restoration. -/
def pull_post_command_hook (repository : RepoState) (exit_success : Bool)
    (ctx : CommandHooksContext) : RepoState × List Event :=
  let joined := if ctx.fetchAuthorshipHandle then [Event.joinFetch] else []
  let rest := pull_post_restore repository exit_success ctx
  (rest.1, joined ++ rest.2)

/-- A whole fetch/pull invocation as seen by the fetch hooks: pre-hook,
background thread (when spawned) with its synchronization outcome, the
wrapped command with its own exit status, post-hook.  The first component
is the user-visible exit status. -/
def fullFetchInvocation (parsed_args : ParsedGitInvocation)
    (repository : RepoState) (outcome : SyncOutcome) (wrappedExit : Bool) :
    Bool × List Event :=
  let pre := fetch_pull_pre_command_hook parsed_args repository
  let threadEvents := match pre.1 with
    | some remote => backgroundFetchThread remote outcome
    | none => []
  let ctx : CommandHooksContext :=
    { fetchAuthorshipHandle := pre.1.isSome, stashedVA := none }
  let post := fetch_pull_post_command_hook ctx
  (wrappedExit, pre.2 ++ threadEvents ++ post.2)

/-- C5: whenever the pre-hook spawned the background authorship-fetch task,
both post-hooks join it before doing anything else — for success and
failure of the main command alike — and any Merge Engine invocation in the
pull post-hook's trace occurs strictly after the join. -/
theorem c5_post_hooks_join_before_merge (repository : RepoState)
    (exit_success : Bool) (ctx : CommandHooksContext)
    (h : ctx.fetchAuthorshipHandle = true) :
    (∃ rest, (pull_post_command_hook repository exit_success ctx).2 =
      Event.joinFetch :: rest) ∧
    (∀ n, ((pull_post_command_hook repository exit_success ctx).2)[n]? =
      some Event.mergeInvoked → 1 ≤ n) ∧
    (fetch_pull_post_command_hook ctx).2 = [Event.joinFetch] := by
  have htrace : (pull_post_command_hook repository exit_success ctx).2 =
      Event.joinFetch :: (pull_post_restore repository exit_success ctx).2 := by
    unfold pull_post_command_hook
    rw [h]
    rfl
  refine ⟨⟨(pull_post_restore repository exit_success ctx).2, htrace⟩, ?_, ?_⟩
  · intro n hn
    rw [htrace] at hn
    match n with
    | 0 => simp at hn
    | Nat.succ m => exact Nat.succ_le_succ (Nat.zero_le m)
  · unfold fetch_pull_post_command_hook
    rw [h]
    rfl

/-- C5 witness: with a spawned handle and a failing main command, the pull
post-hook's first event is the join, no merge invocation precedes it, and
the fetch post-hook's trace is exactly the join. -/
theorem c5_post_hooks_join_before_merge_witness :
    (∃ rest, (pull_post_command_hook
      { headCommit := none, preCommandBaseCommit := none, workdirFiles := [],
        workingLogs := [], configValues := [], stagedUnstagedFilenames := none,
        defaultAuthor := "Test User" } false
      { fetchAuthorshipHandle := true, stashedVA := none }).2 =
      Event.joinFetch :: rest) ∧
    (∀ n, ((pull_post_command_hook
      { headCommit := none, preCommandBaseCommit := none, workdirFiles := [],
        workingLogs := [], configValues := [], stagedUnstagedFilenames := none,
        defaultAuthor := "Test User" } false
      { fetchAuthorshipHandle := true, stashedVA := none }).2)[n]? =
      some Event.mergeInvoked → 1 ≤ n) ∧
    (fetch_pull_post_command_hook
      { fetchAuthorshipHandle := true, stashedVA := none }).2 = [Event.joinFetch] :=
  c5_post_hooks_join_before_merge
    { headCommit := none, preCommandBaseCommit := none, workdirFiles := [],
      workingLogs := [], configValues := [], stagedUnstagedFilenames := none,
      defaultAuthor := "Test User" } false
    { fetchAuthorshipHandle := true, stashedVA := none } rfl

/-- C6 (amended): on a dry run the fetch pre-hook short-circuits the entire
fetch-synchronization portion before any background thread is spawned — it
returns no handle and its trace carries no flush spawn, no fetch-thread
spawn and no network transfer (only the out-of-scope update-check
scheduling that precedes the check). -/
theorem c6_dry_run_short_circuits_fetch_portion
    (parsed_args : ParsedGitInvocation) (repository : RepoState)
    (h : is_dry_run parsed_args = true) :
    (fetch_pull_pre_command_hook parsed_args repository).1 = none ∧
    (fetch_pull_pre_command_hook parsed_args repository).2 =
      [Event.scheduleUpdateCheck] ∧
    Event.spawnFetchThread ∉ (fetch_pull_pre_command_hook parsed_args repository).2 ∧
    Event.spawnFlush ∉ (fetch_pull_pre_command_hook parsed_args repository).2 ∧
    Event.networkFetch ∉ (fetch_pull_pre_command_hook parsed_args repository).2 := by
  have hval : fetch_pull_pre_command_hook parsed_args repository =
      (none, [Event.scheduleUpdateCheck]) := by
    unfold fetch_pull_pre_command_hook
    rw [h]
    rfl
  refine ⟨by rw [hval], by rw [hval], ?_, ?_, ?_⟩ <;> rw [hval] <;> simp

/-- C6 witness: a concrete dry-run invocation spawns nothing. -/
theorem c6_dry_run_short_circuits_fetch_portion_witness :
    (fetch_pull_pre_command_hook
      { commandFlags := ["--dry-run"], dryRun := true, remoteResult := some "origin" }
      { headCommit := some "h0", preCommandBaseCommit := none, workdirFiles := [],
        workingLogs := [], configValues := [], stagedUnstagedFilenames := none,
        defaultAuthor := "Test User" }).1 = none ∧
    (fetch_pull_pre_command_hook
      { commandFlags := ["--dry-run"], dryRun := true, remoteResult := some "origin" }
      { headCommit := some "h0", preCommandBaseCommit := none, workdirFiles := [],
        workingLogs := [], configValues := [], stagedUnstagedFilenames := none,
        defaultAuthor := "Test User" }).2 = [Event.scheduleUpdateCheck] ∧
    Event.spawnFetchThread ∉ (fetch_pull_pre_command_hook
      { commandFlags := ["--dry-run"], dryRun := true, remoteResult := some "origin" }
      { headCommit := some "h0", preCommandBaseCommit := none, workdirFiles := [],
        workingLogs := [], configValues := [], stagedUnstagedFilenames := none,
        defaultAuthor := "Test User" }).2 ∧
    Event.spawnFlush ∉ (fetch_pull_pre_command_hook
      { commandFlags := ["--dry-run"], dryRun := true, remoteResult := some "origin" }
      { headCommit := some "h0", preCommandBaseCommit := none, workdirFiles := [],
        workingLogs := [], configValues := [], stagedUnstagedFilenames := none,
        defaultAuthor := "Test User" }).2 ∧
    Event.networkFetch ∉ (fetch_pull_pre_command_hook
      { commandFlags := ["--dry-run"], dryRun := true, remoteResult := some "origin" }
      { headCommit := some "h0", preCommandBaseCommit := none, workdirFiles := [],
        workingLogs := [], configValues := [], stagedUnstagedFilenames := none,
        defaultAuthor := "Test User" }).2 :=
  c6_dry_run_short_circuits_fetch_portion
    { commandFlags := ["--dry-run"], dryRun := true, remoteResult := some "origin" }
    { headCommit := some "h0", preCommandBaseCommit := none, workdirFiles := [],
      workingLogs := [], configValues := [], stagedUnstagedFilenames := none,
      defaultAuthor := "Test User" } rfl

/-- C6 counterexample: the dry-run check does not short-circuit the entire
pull pre-command hook — on a concrete dry-run pull invocation in
rebase+autostash mode with uncommitted changes, the pre-hook still performs
the attribution-capture work (a `VirtualAttributions` snapshot is built and
stashed). -/
theorem c6_counterexample_dry_run_pull_still_captures :
    is_dry_run
      { commandFlags := ["--dry-run", "--rebase", "--autostash"], dryRun := true,
        remoteResult := some "origin" } = true ∧
    (pull_pre_command_hook
      { commandFlags := ["--dry-run", "--rebase", "--autostash"], dryRun := true,
        remoteResult := some "origin" }
      { headCommit := some "h0", preCommandBaseCommit := none, workdirFiles := [],
        workingLogs := [("h0",
          ⟨some ⟨[("f.txt", ⟨[("x", Author.ai "mock_ai" none none)]⟩)], []⟩, []⟩)],
        configValues := [], stagedUnstagedFilenames := some ["f.txt"],
        defaultAuthor := "Test User" }).2.1.stashedVA.isSome = true := by
  constructor
  · rfl
  · decide

/-- C7: for every fetch/pull invocation, every synchronization failure
(remote-extraction failure, repository-reopen failure in the background
thread, transport failure from the notes fetch) is logged in the trace, and
the user-visible exit status of the whole invocation is exactly the wrapped
command's own exit status, whatever the outcome. -/
theorem c7_sync_failures_logged_and_swallowed
    (parsed_args : ParsedGitInvocation) (repository : RepoState)
    (outcome : SyncOutcome) (wrappedExit : Bool) :
    (fullFetchInvocation parsed_args repository outcome wrappedExit).1 = wrappedExit ∧
    (is_dry_run parsed_args = false →
      fetch_remote_from_args repository parsed_args = none →
      Event.log "failed to extract remote for authorship fetch; skipping" ∈
        (fullFetchInvocation parsed_args repository outcome wrappedExit).2) ∧
    (is_dry_run parsed_args = false →
      ∀ r, fetch_remote_from_args repository parsed_args = some r →
      outcome = SyncOutcome.repoOpenFailed →
      Event.log "failed to open repository for authorship fetch" ∈
        (fullFetchInvocation parsed_args repository outcome wrappedExit).2) ∧
    (is_dry_run parsed_args = false →
      ∀ r e, fetch_remote_from_args repository parsed_args = some r →
      outcome = SyncOutcome.fetchFailed e →
      Event.log ("authorship fetch failed: " ++ e) ∈
        (fullFetchInvocation parsed_args repository outcome wrappedExit).2) := by
  refine ⟨rfl, ?_, ?_, ?_⟩
  · intro hdry hrem
    unfold fullFetchInvocation fetch_pull_pre_command_hook
    rw [hdry, hrem]
    simp
  · intro hdry r hrem houtcome
    subst houtcome
    unfold fullFetchInvocation fetch_pull_pre_command_hook
    rw [hdry, hrem]
    simp [backgroundFetchThread]
  · intro hdry r e hrem houtcome
    subst houtcome
    unfold fullFetchInvocation fetch_pull_pre_command_hook
    rw [hdry, hrem]
    simp [backgroundFetchThread]

/-- C7 witness: at a concrete invocation whose notes fetch fails with a
transport error while the wrapped command itself fails, the exit status is
the wrapped command's and the failure is logged. -/
theorem c7_sync_failures_logged_and_swallowed_witness :
    (fullFetchInvocation
      { commandFlags := [], dryRun := false, remoteResult := some "origin" }
      { headCommit := some "h0", preCommandBaseCommit := none, workdirFiles := [],
        workingLogs := [], configValues := [], stagedUnstagedFilenames := none,
        defaultAuthor := "Test User" }
      (SyncOutcome.fetchFailed "transport error") false).1 = false ∧
    Event.log ("authorship fetch failed: " ++ "transport error") ∈
      (fullFetchInvocation
        { commandFlags := [], dryRun := false, remoteResult := some "origin" }
        { headCommit := some "h0", preCommandBaseCommit := none, workdirFiles := [],
          workingLogs := [], configValues := [], stagedUnstagedFilenames := none,
          defaultAuthor := "Test User" }
        (SyncOutcome.fetchFailed "transport error") false).2 := by
  constructor
  · exact (c7_sync_failures_logged_and_swallowed
      { commandFlags := [], dryRun := false, remoteResult := some "origin" }
      { headCommit := some "h0", preCommandBaseCommit := none, workdirFiles := [],
        workingLogs := [], configValues := [], stagedUnstagedFilenames := none,
        defaultAuthor := "Test User" }
      (SyncOutcome.fetchFailed "transport error") false).1
  · exact (c7_sync_failures_logged_and_swallowed
      { commandFlags := [], dryRun := false, remoteResult := some "origin" }
      { headCommit := some "h0", preCommandBaseCommit := none, workdirFiles := [],
        workingLogs := [], configValues := [], stagedUnstagedFilenames := none,
        defaultAuthor := "Test User" }
      (SyncOutcome.fetchFailed "transport error") false).2.2.2 rfl "origin"
      "transport error" rfl rfl

/-- C10: the pull post-hook writes nothing to the attribution store — the
working logs are left unchanged — whenever the pull's exit status is
unsuccessful, or the post-pull HEAD equals the pre-pull HEAD capture, or
the merged result it would write has no files and no prompts. -/
theorem c10_post_hook_frame (repository : RepoState) (exit_success : Bool)
    (ctx : CommandHooksContext)
    (h : exit_success = false ∨
      repository.headCommit = repository.preCommandBaseCommit ∨
      (∀ new_head stashed_va, repository.headCommit = some new_head →
        ctx.stashedVA = some stashed_va →
        (pullMergedInitial repository new_head stashed_va).files.isEmpty = true ∧
        (pullMergedInitial repository new_head stashed_va).prompts.isEmpty = true)) :
    (pull_post_command_hook repository exit_success ctx).1.workingLogs =
      repository.workingLogs := by
  have hmain : (pull_post_command_hook repository exit_success ctx).1 =
      (pull_post_restore repository exit_success ctx).1 := rfl
  rw [hmain]
  unfold pull_post_restore
  cases hexit : exit_success with
  | false => simp
  | true =>
    simp only [Bool.not_true, Bool.false_eq_true, if_false]
    rcases h with he | hh | hinit
    · exact absurd hexit (by rw [he]; exact Bool.false_ne_true)
    · cases hpre : repository.preCommandBaseCommit with
      | none => rfl
      | some old_head =>
        rw [hpre] at hh
        rw [hh]
        simp
    · cases hpre : repository.preCommandBaseCommit with
      | none => rfl
      | some old_head =>
        cases hhead : repository.headCommit with
        | none => rfl
        | some new_head =>
          by_cases heq : old_head = new_head
          · simp [heq]
          · simp only [if_neg heq]
            cases hsva : ctx.stashedVA with
            | none => rfl
            | some stashed_va =>
              obtain ⟨hif, hip⟩ := hinit new_head stashed_va hhead hsva
              by_cases hsf : (stashed_va.files.map Prod.fst).isEmpty = true
              · simp [hsf]
              · simp only [Bool.not_eq_true] at hsf
                simp only [hsf, Bool.false_eq_true, if_false]
                by_cases hwf :
                    (buildWorkingFiles repository (stashed_va.files.map Prod.fst)).isEmpty = true
                · simp [hwf]
                · simp only [Bool.not_eq_true] at hwf
                  simp only [hwf, Bool.false_eq_true, if_false]
                  simp [hif, hip]

/-- C10 witness: a failing pull leaves a concrete non-trivial working-log
store untouched. -/
theorem c10_post_hook_frame_witness :
    (pull_post_command_hook
      { headCommit := some "h1", preCommandBaseCommit := some "h0",
        workdirFiles := [("f.txt", "x")],
        workingLogs := [("h0",
          ⟨some ⟨[("f.txt", ⟨[("x", Author.ai "mock_ai" none none)]⟩)], []⟩, []⟩)],
        configValues := [], stagedUnstagedFilenames := none,
        defaultAuthor := "Test User" } false
      { fetchAuthorshipHandle := true,
        stashedVA := some
          { baseCommit := "h0", head := "h0",
            files := [("f.txt", ⟨[("x", Author.ai "mock_ai" none none)]⟩)],
            prompts := [], humanFallback := none } }).1.workingLogs =
      [("h0", ⟨some ⟨[("f.txt", ⟨[("x", Author.ai "mock_ai" none none)]⟩)], []⟩, []⟩)] :=
  c10_post_hook_frame
    { headCommit := some "h1", preCommandBaseCommit := some "h0",
      workdirFiles := [("f.txt", "x")],
      workingLogs := [("h0",
        ⟨some ⟨[("f.txt", ⟨[("x", Author.ai "mock_ai" none none)]⟩)], []⟩, []⟩)],
      configValues := [], stagedUnstagedFilenames := none,
      defaultAuthor := "Test User" } false
    { fetchAuthorshipHandle := true,
      stashedVA := some
        { baseCommit := "h0", head := "h0",
          files := [("f.txt", ⟨[("x", Author.ai "mock_ai" none none)]⟩)],
          prompts := [], humanFallback := none } }
    (Or.inl rfl)

theorem alookup_isEmpty_false {β : Type} (xs : List (String × β)) (k : String)
    (v : β) (h : alookup xs k = some v) : xs.isEmpty = false := by
  cases xs with
  | nil => simp [alookup] at h
  | cons x rest => rfl

theorem alookup_mem_keys {β : Type} (xs : List (String × β)) (k : String)
    (v : β) (h : alookup xs k = some v) : k ∈ xs.map Prod.fst := by
  induction xs with
  | nil => simp [alookup] at h
  | cons x rest ih =>
    obtain ⟨k1, v1⟩ := x
    by_cases hk : k1 = k
    · subst hk
      exact List.mem_cons_self _ _
    · rw [alookup_cons, if_neg hk] at h
      exact List.mem_cons_of_mem _ (ih h)

theorem alookup_buildWorkingFiles (repository : RepoState) (paths : List String)
    (f c : String) (hf : f ∈ paths)
    (hc : alookup repository.workdirFiles f = some c) :
    alookup (buildWorkingFiles repository paths) f = some c := by
  induction paths with
  | nil => cases hf
  | cons p rest ih =>
    by_cases hpf : p = f
    · subst hpf
      simp [buildWorkingFiles, List.filterMap_cons, hc, alookup]
    · have hfr : f ∈ rest := by
        rcases List.mem_cons.mp hf with h | h
        · exact absurd h.symm hpf
        · exact h
      have hih := ih hfr
      cases hw : alookup repository.workdirFiles p with
      | none =>
        simpa [buildWorkingFiles, List.filterMap_cons, hw] using hih
      | some cp =>
        simpa [buildWorkingFiles, List.filterMap_cons, hw, alookup, hpf] using hih

theorem alookup_setInitialSlot (logs : List (String × WorkingLogState))
    (base : String) (init : InitialAttributions) :
    ∃ wl, alookup (setInitialSlot logs base init) base = some wl ∧
      wl.initial = some init := by
  induction logs with
  | nil => exact ⟨⟨some init, []⟩, by simp [setInitialSlot, alookup], rfl⟩
  | cons kv rest ih =>
    obtain ⟨k, wl0⟩ := kv
    by_cases hk : k = base
    · subst hk
      exact ⟨{ wl0 with initial := some init },
        by simp [setInitialSlot, alookup], rfl⟩
    · obtain ⟨wl, h1, h2⟩ := ih
      exact ⟨wl, by simp [setInitialSlot, hk, alookup, h1], h2⟩

/-- Evaluation of the pull pre-hook under the C2 trigger conditions: with
`--rebase` and `--autostash` passed (and not negated), a successful
non-empty staged/unstaged listing, a known HEAD, and a non-empty working
log snapshot, the hook stashes exactly the `VirtualAttributions` built from
the working log at the old HEAD. -/
theorem pull_pre_hook_captures (parsed_args : ParsedGitInvocation)
    (repo0 : RepoState) (old_head : String) (fs : List String)
    (hreb : parsed_args.hasCommandFlag "--rebase" = true)
    (hnoreb : parsed_args.hasCommandFlag "--no-rebase" = false)
    (hauto : parsed_args.hasCommandFlag "--autostash" = true)
    (hnoauto : parsed_args.hasCommandFlag "--no-autostash" = false)
    (hchanges : repo0.stagedUnstagedFilenames = some fs) (hfs : fs ≠ [])
    (hhead0 : repo0.headCommit = some old_head)
    (hnonempty : (from_just_working_log repo0 old_head
      (some (get_commit_default_author repo0))).files.isEmpty = false) :
    (pull_pre_command_hook parsed_args repo0).2.1.stashedVA =
      some (from_just_working_log repo0 old_head
        (some (get_commit_default_author repo0))) := by
  have hconfig : get_pull_rebase_autostash_config parsed_args
      { repo0 with preCommandBaseCommit := repo0.headCommit } =
      ⟨true, true⟩ := by
    unfold get_pull_rebase_autostash_config
    rw [hnoreb, hreb, hnoauto, hauto]
    rfl
  have hchg : has_uncommitted_changes
      { repo0 with preCommandBaseCommit := repo0.headCommit } = true := by
    unfold has_uncommitted_changes
    have : ({ repo0 with preCommandBaseCommit := repo0.headCommit } :
        RepoState).stagedUnstagedFilenames = some fs := hchanges
    rw [this]
    cases fs with
    | nil => exact absurd rfl hfs
    | cons a l => rfl
  unfold pull_pre_command_hook
  simp only [hconfig, hchg, Bool.and_self, eq_self_iff_true, if_true]
  rw [hhead0]
  dsimp only
  have hnonempty2 : (from_just_working_log
      { repo0 with headCommit := some old_head, preCommandBaseCommit := some old_head }
      old_head
      (some (get_commit_default_author
        { repo0 with headCommit := some old_head, preCommandBaseCommit := some old_head }))).files.isEmpty = false :=
    hnonempty
  simp only [hnonempty2, Bool.false_eq_true, if_false]
  rfl

/-- C2: a pull with `--rebase` and `--autostash` and uncommitted
AI-attributed changes — the pre-hook captures the working-log snapshot;
after a successful pull that moved HEAD, the post-hook merges the snapshot
with the new-HEAD state and writes the result to the INITIAL slot of the
working log for the new HEAD, so a file whose captured line survived the
stash/reapply verbatim keeps its AI attribution there. -/
theorem c2_pull_autostash_preserves_ai_attribution
    (parsed_args : ParsedGitInvocation) (repo0 repoP : RepoState)
    (old_head new_head f c l tool : String) (mdl pid : Option String)
    (fa : FileAttribution) (fs : List String)
    (hreb : parsed_args.hasCommandFlag "--rebase" = true)
    (hnoreb : parsed_args.hasCommandFlag "--no-rebase" = false)
    (hauto : parsed_args.hasCommandFlag "--autostash" = true)
    (hnoauto : parsed_args.hasCommandFlag "--no-autostash" = false)
    (hchanges : repo0.stagedUnstagedFilenames = some fs) (hfs : fs ≠ [])
    (hhead0 : repo0.headCommit = some old_head)
    (hfa : alookup (from_just_working_log repo0 old_head
      (some (get_commit_default_author repo0))).files f = some fa)
    (hline : lookupLine fa l = some (Author.ai tool mdl pid))
    (hpreP : repoP.preCommandBaseCommit = some old_head)
    (hheadP : repoP.headCommit = some new_head)
    (hne : old_head ≠ new_head)
    (hcontent : alookup repoP.workdirFiles f = some c)
    (hl : l ∈ splitLines c) :
    ∃ wl init fa2,
      alookup (pull_post_command_hook repoP true
        (pull_pre_command_hook parsed_args repo0).2.1).1.workingLogs new_head =
          some wl ∧
      wl.initial = some init ∧
      alookup init.files f = some fa2 ∧
      lookupLine fa2 l = some (Author.ai tool mdl pid) := by
  set va := from_just_working_log repo0 old_head
    (some (get_commit_default_author repo0)) with hva_def
  have hvane : va.files.isEmpty = false := alookup_isEmpty_false va.files f fa hfa
  have hctx : (pull_pre_command_hook parsed_args repo0).2.1.stashedVA = some va :=
    pull_pre_hook_captures parsed_args repo0 old_head fs hreb hnoreb hauto hnoauto
      hchanges hfs hhead0 hvane
  -- the stashed file paths and the surviving workdir contents
  have hfkeys : f ∈ va.files.map Prod.fst := alookup_mem_keys va.files f fa hfa
  have hsfne : (va.files.map Prod.fst).isEmpty = false := by
    cases hxs : va.files.map Prod.fst with
    | nil => rw [hxs] at hfkeys; cases hfkeys
    | cons a rest => rfl
  have hwf : alookup (buildWorkingFiles repoP (va.files.map Prod.fst)) f = some c :=
    alookup_buildWorkingFiles repoP (va.files.map Prod.fst) f c hfkeys hcontent
  have hwfne : (buildWorkingFiles repoP (va.files.map Prod.fst)).isEmpty = false :=
    alookup_isEmpty_false _ f c hwf
  -- the merged INITIAL attributions for the new HEAD
  set new_va := from_just_working_log repoP new_head none with hnewva_def
  set working_files := buildWorkingFiles repoP (va.files.map Prod.fst) with hwf_def
  have hmergedF : alookup (merge_attributions_favoring_first va new_va
      working_files).files f =
      some (match alookup new_va.files f with
        | some sf => mergeFileBoth fa sf va.humanFallback (splitLines c)
        | none => realignFile fa va.humanFallback (splitLines c)) :=
    merge_files_alookup va new_va working_files f c hwf fa hfa
  obtain ⟨fa2, hfa2, hfa2l⟩ :
      ∃ fa2, alookup (merge_attributions_favoring_first va new_va
        working_files).files f = some fa2 ∧
        lookupLine fa2 l = some (Author.ai tool mdl pid) := by
    cases hs : alookup new_va.files f with
    | some sf =>
      refine ⟨mergeFileBoth fa sf va.humanFallback (splitLines c), ?_, ?_⟩
      · rw [hmergedF, hs]
      · exact lookupLine_mergeFileBoth_primary fa sf va.humanFallback
          (splitLines c) l _ hl hline
    | none =>
      refine ⟨realignFile fa va.humanFallback (splitLines c), ?_, ?_⟩
      · rw [hmergedF, hs]
      · exact lookupLine_realignFile_primary fa va.humanFallback
          (splitLines c) l _ hl hline
  have hinitF : alookup (pullMergedInitial repoP new_head va).files f = some fa2 := by
    unfold pullMergedInitial toInitialAttributions
    rw [← hnewva_def, ← hwf_def]
    exact hfa2
  have hinitne : (pullMergedInitial repoP new_head va).files.isEmpty = false :=
    alookup_isEmpty_false _ f fa2 hinitF
  -- evaluate the post-hook down to the write
  have hrepo : (pull_post_command_hook repoP true
      (pull_pre_command_hook parsed_args repo0).2.1).1 =
      write_initial_attributions repoP new_head
        (pullMergedInitial repoP new_head va) := by
    have hmain : (pull_post_command_hook repoP true
        (pull_pre_command_hook parsed_args repo0).2.1).1 =
        (pull_post_restore repoP true
          (pull_pre_command_hook parsed_args repo0).2.1).1 := rfl
    rw [hmain]
    unfold pull_post_restore
    rw [hpreP, hheadP, hctx]
    simp only [Bool.not_true, Bool.false_eq_true, if_false, if_neg hne,
      hsfne, ← hwf_def, hwfne, hinitne, Bool.false_and]
  rw [hrepo]
  unfold write_initial_attributions
  obtain ⟨wl, hwl, hwlinit⟩ := alookup_setInitialSlot repoP.workingLogs new_head
    (pullMergedInitial repoP new_head va)
  exact ⟨wl, pullMergedInitial repoP new_head va, fa2, hwl, hwlinit, hinitF, hfa2l⟩

/-- C2 witness: a concrete pull in rebase+autostash mode with one
AI-attributed uncommitted line whose content survives the reapply — the new
HEAD's INITIAL slot attributes that line to the AI tool. -/
theorem c2_pull_autostash_preserves_ai_attribution_witness :
    ∃ wl init fa2,
      alookup (pull_post_command_hook
        { headCommit := some "new", preCommandBaseCommit := some "old",
          workdirFiles := [("f.txt", "ai line")], workingLogs := [],
          configValues := [], stagedUnstagedFilenames := none,
          defaultAuthor := "Test User" } true
        (pull_pre_command_hook
          { commandFlags := ["--rebase", "--autostash"], dryRun := false,
            remoteResult := some "origin" }
          { headCommit := some "old", preCommandBaseCommit := none,
            workdirFiles := [("f.txt", "ai line")],
            workingLogs := [("old",
              ⟨some ⟨[("f.txt", ⟨[("ai line", Author.ai "mock_ai" none none)]⟩)],
                []⟩, []⟩)],
            configValues := [], stagedUnstagedFilenames := some ["f.txt"],
            defaultAuthor := "Test User" }).2.1).1.workingLogs "new" = some wl ∧
      wl.initial = some init ∧
      alookup init.files "f.txt" = some fa2 ∧
      lookupLine fa2 "ai line" = some (Author.ai "mock_ai" none none) :=
  c2_pull_autostash_preserves_ai_attribution
    { commandFlags := ["--rebase", "--autostash"], dryRun := false,
      remoteResult := some "origin" }
    { headCommit := some "old", preCommandBaseCommit := none,
      workdirFiles := [("f.txt", "ai line")],
      workingLogs := [("old",
        ⟨some ⟨[("f.txt", ⟨[("ai line", Author.ai "mock_ai" none none)]⟩)], []⟩, []⟩)],
      configValues := [], stagedUnstagedFilenames := some ["f.txt"],
      defaultAuthor := "Test User" }
    { headCommit := some "new", preCommandBaseCommit := some "old",
      workdirFiles := [("f.txt", "ai line")], workingLogs := [],
      configValues := [], stagedUnstagedFilenames := none,
      defaultAuthor := "Test User" }
    "old" "new" "f.txt" "ai line" "ai line" "mock_ai" none none
    ⟨[("ai line", Author.ai "mock_ai" none none)]⟩ ["f.txt"]
    (by decide) (by decide) (by decide) (by decide) rfl (by decide) rfl
    (by decide) (by decide) rfl rfl (by decide) (by decide) (by decide)

end GitAI
